import Mathlib

/-!
Shallow embedding of `src/dotnote.py` (DotNote, an LED-matrix message display
server) and verification of its specification.

The program keeps one global message string (`current_message`, guarded by a
lock), a Flask handler `update_message` for `GET /update` that validates,
pads, stores, logs and beeps, and a `display_loop` thread that repeatedly
snapshots the store and drives the LED display, replacing the store with a
sentinel string when rendering fails.

Modelling conventions:
- Python strings are Lean `String`s; `str.strip()` is `pyStrip` below
  (drop whitespace from both ends).
- The `message` query parameter is `Option String` (`request.args.get`
  returns `None` when absent).
- Exceptions raised by external I/O (the log-file write, the display driver)
  are modelled by explicit parameters saying whether the call succeeds.
- The handler is split into a pure function returning the HTTP response and
  the ordered list of side effects it performs, plus an interpreter applying
  those effects to the server state.
-/

/-! ## Configuration constants (src/dotnote.py lines 20-43) -/

def DEFAULT_MESSAGE : String := "Welcome to DotNote!   "

def MESSAGE_SPACING : String := "   "

def BUZZER_ENABLED : Bool := true

def LOG_ENABLED : Bool := true

/-- The fixed sentinel written to the store by `display_loop` when
`show_message` raises (src/dotnote.py line 94). -/
def ERROR_SENTINEL : String := "Error: Unsupported character   "

/-! ## Python `str.strip()` -/

/-- Drop leading whitespace, as Python's `lstrip`. -/
def stripLeft (l : List Char) : List Char := l.dropWhile Char.isWhitespace

/-- Drop trailing whitespace, as Python's `rstrip`. -/
def stripRight (l : List Char) : List Char :=
  (l.reverse.dropWhile Char.isWhitespace).reverse

/-- Python's `str.strip()`: whitespace removed from both ends. -/
def pyStrip (s : String) : String := ⟨stripLeft (stripRight s.data)⟩

/-! ## Data model -/

/-- One record appended to the log file by `log_message`
(src/dotnote.py lines 124-129). -/
structure LogRecord where
  timestamp : String
  ip : String
  text : String
deriving DecidableEq, Repr

/-- The line written for a record: the f-string at src/dotnote.py line 125. -/
def logLine (r : LogRecord) : String :=
  r.timestamp ++ " - " ++ r.ip ++ " - " ++ r.text ++ "\n"

/-- An HTTP response as produced by `jsonify(single-key dict), status`:
the JSON object's single key, its string value, and the status code. -/
structure Response where
  key : String
  value : String
  status : Nat
deriving DecidableEq, Repr

/-- `jsonify error, 400` at src/dotnote.py line 167. -/
def errorResponse : Response := ⟨"error", "No valid message provided", 400⟩

/-- `jsonify message-updated, 200` at src/dotnote.py line 184. -/
def successResponse : Response := ⟨"message", "Message updated", 200⟩

/-- A side effect performed by the `update_message` handler, in the order
the handler performs them. -/
inductive Effect where
  | setStore (s : String)
  | logAppend (r : LogRecord)
  | startBeep
deriving DecidableEq, Repr

/-- The mutable state of the server process: the message store, the log
file contents, and how many beep threads have been started. -/
structure ServerState where
  current_message : String
  log : List LogRecord
  beeps : Nat
deriving DecidableEq, Repr

/-- The state at startup: `current_message = DEFAULT_MESSAGE`
(src/dotnote.py line 65), empty log, no beeps. -/
def initialState : ServerState := ⟨DEFAULT_MESSAGE, [], 0⟩

/-! ## log_message (src/dotnote.py lines 112-131) -/

/-- `log_message(message, ip)`: returns the records appended to the log
file.  If logging is disabled it returns immediately; otherwise it formats
`timestamp - ip - message.strip()` and appends it; an exception from the
file write (`writeOk = false`) is caught inside the function, so nothing
is appended and nothing propagates. -/
def log_message (message ip timestamp : String) (writeOk : Bool) :
    List LogRecord :=
  if LOG_ENABLED then
    if writeOk then [⟨timestamp, ip, pyStrip message⟩] else []
  else []

/-! ## update_message (src/dotnote.py lines 144-184) -/

/-- The `/update` handler.  `req` is `request.args.get('message')`.
Validation: `if not new_message or new_message.strip() == ""` rejects with
the error response and performs no side effect.  Otherwise
`MESSAGE_SPACING` is appended, the store is overwritten, `log_message` is
called with the padded message, and (buzzer enabled) a beep thread is
started; the success response is returned.  `logWriteOk` models whether
the log-file write succeeds. -/
def update_message (req : Option String) (ip timestamp : String)
    (logWriteOk : Bool) : Response × List Effect :=
  match req with
  | none => (errorResponse, [])
  | some new_message =>
    if new_message = "" ∨ pyStrip new_message = "" then
      (errorResponse, [])
    else
      (successResponse,
        Effect.setStore (new_message ++ MESSAGE_SPACING) ::
          ((log_message (new_message ++ MESSAGE_SPACING) ip timestamp
              logWriteOk).map Effect.logAppend
            ++ if BUZZER_ENABLED then [Effect.startBeep] else []))

/-- Apply one handler side effect to the server state. -/
def applyEffect (st : ServerState) : Effect → ServerState
  | .setStore s => { st with current_message := s }
  | .logAppend r => { st with log := st.log ++ [r] }
  | .startBeep => { st with beeps := st.beeps + 1 }

/-- Apply a list of side effects in order. -/
def applyTrace (st : ServerState) (es : List Effect) : ServerState :=
  es.foldl applyEffect st

/-- Run the `/update` handler against a server state: the new state and
the HTTP response. -/
def handleUpdate (st : ServerState) (req : Option String)
    (ip timestamp : String) (logWriteOk : Bool) : ServerState × Response :=
  let p := update_message req ip timestamp logWriteOk
  (applyTrace st p.2, p.1)

/-- Run a sequence of `/update` requests, each given as
(parameter, ip, timestamp, log-write-success). -/
def runRequests (st : ServerState) :
    List (Option String × String × String × Bool) → ServerState
  | [] => st
  | r :: rest => runRequests (handleUpdate st r.1 r.2.1 r.2.2.1 r.2.2.2).1 rest

/-- The message parameter of a request is absent, empty, or
whitespace-only (trims to the empty string): exactly the requests the
handler's validation rejects. -/
def blankRequest (r : Option String × String × String × Bool) : Bool :=
  match r.1 with
  | none => true
  | some m => pyStrip m == ""

/-! ## display_loop (src/dotnote.py lines 72-95) -/

/-- The result of one iteration of `display_loop`. -/
structure IterResult where
  rendered : String
  storeAfter : String
  consoleError : Option String
deriving DecidableEq, Repr

/-- One iteration of `display_loop`: take the snapshot `msg` of the store
under the lock, then call `show_message device msg ...`.  `midRender` is
the value a concurrent `/update` request writes to the store while the
(long-running) render call is in progress, if any.  `failure` is the
exception message when `show_message` raises, if any: in that case the
loop prints the reason and overwrites the store with `ERROR_SENTINEL`;
on a normal return the loop does not touch the store. -/
def display_iteration (store : String) (midRender : Option String)
    (failure : Option String) : IterResult :=
  let msg := store
  match failure with
  | none => ⟨msg, midRender.getD store, none⟩
  | some e => ⟨msg, ERROR_SENTINEL, some ("Error displaying message: " ++ e)⟩

/-- Run `display_loop` for finitely many iterations (no concurrent writes);
each list element is the failure outcome of that iteration's render call.
Returns the store value after those iterations. -/
def display_loop_run (store : String) (events : List (Option String)) :
    String :=
  events.foldl (fun s ev => (display_iteration s none ev).storeAfter) store

/-! ## Whole-system transitions (for the store invariant) -/

/-- An event mutating (or attempting to mutate) the message store: an
`/update` request, or one `display_loop` render with the given failure
outcome.  The lock `message_lock` serializes all store accesses, so a
concurrent request during a render is just a `request` event ordered
before or after the `render` event. -/
inductive SysEvent where
  | request (req : Option String) (ip timestamp : String) (logWriteOk : Bool)
  | render (failure : Option String)
deriving DecidableEq, Repr

/-- Effect of one system event on the message store. -/
def sysStep (s : String) : SysEvent → String
  | .request req ip ts ok =>
      (handleUpdate ⟨s, [], 0⟩ req ip ts ok).1.current_message
  | .render failure => (display_iteration s none failure).storeAfter

/-- The store contents after a sequence of system events from startup. -/
def reachableMessage (events : List SysEvent) : String :=
  events.foldl sysStep DEFAULT_MESSAGE

/-! ## Helper lemmas -/

lemma spacing_data : MESSAGE_SPACING.data = [' ', ' ', ' '] := rfl

lemma stripRight_append_spacing (l : List Char) :
    stripRight (l ++ MESSAGE_SPACING.data) = stripRight l := by
  simp [stripRight, spacing_data, List.reverse_append, List.dropWhile_cons,
    Char.isWhitespace]

/-- Appending the spacing suffix does not change the stripped value, so the
log line carries the trim of the original input. -/
lemma pyStrip_append_spacing (m : String) :
    pyStrip (m ++ MESSAGE_SPACING) = pyStrip m := by
  unfold pyStrip
  rw [String.data_append, stripRight_append_spacing]

lemma handleUpdate_none (st : ServerState) (ip ts : String) (ok : Bool) :
    handleUpdate st none ip ts ok = (st, errorResponse) := rfl

lemma handleUpdate_invalid (st : ServerState) (m ip ts : String) (ok : Bool)
    (h : m = "" ∨ pyStrip m = "") :
    handleUpdate st (some m) ip ts ok = (st, errorResponse) := by
  simp [handleUpdate, update_message, h, applyTrace]

lemma handleUpdate_accepted (st : ServerState) (m ip ts : String) (ok : Bool)
    (h : ¬(m = "" ∨ pyStrip m = "")) :
    handleUpdate st (some m) ip ts ok =
      (⟨m ++ MESSAGE_SPACING,
        st.log ++ if ok then [⟨ts, ip, pyStrip m⟩] else [],
        st.beeps + 1⟩, successResponse) := by
  cases ok <;>
    simp [handleUpdate, update_message, applyTrace, applyEffect, log_message,
      LOG_ENABLED, BUZZER_ENABLED, h, pyStrip_append_spacing]

/-! ## Claims -/

/-- Claim C1: for every input string m that is non-empty after trimming
whitespace and equal to its own trim, a successful GET /update request with
message = m leaves the message store holding exactly m followed by the
three-space separator, when the handler returns. -/
theorem C1_store_holds_padded_message (st : ServerState) (m ip ts : String)
    (ok : Bool) (htrim : pyStrip m = m) (hne : pyStrip m ≠ "") :
    (handleUpdate st (some m) ip ts ok).2 = successResponse ∧
    (handleUpdate st (some m) ip ts ok).1.current_message =
      m ++ MESSAGE_SPACING := by
  have h : ¬(m = "" ∨ pyStrip m = "") := by
    rintro (rfl | h)
    · exact hne htrim
    · exact hne h
  rw [handleUpdate_accepted st m ip ts ok h]
  exact ⟨rfl, rfl⟩

/-- Witness for C1 at the concrete input "Hello". -/
theorem C1_witness :
    (handleUpdate initialState (some "Hello") "10.0.0.7" "2026-10-12 12:00:00"
        true).2 = successResponse ∧
    (handleUpdate initialState (some "Hello") "10.0.0.7" "2026-10-12 12:00:00"
        true).1.current_message = "Hello" ++ MESSAGE_SPACING :=
  C1_store_holds_padded_message initialState "Hello" "10.0.0.7"
    "2026-10-12 12:00:00" true (by decide) (by decide)

/-- Claim C2: the handler returns the JSON body with key "error" and value
"No valid message provided" at status 400 if and only if the message
parameter is absent or trims to the empty string; otherwise it returns the
JSON body with key "message" and value "Message updated" at status 200. -/
theorem C2_response_characterization (req : Option String) (ip ts : String)
    (ok : Bool) :
    (update_message req ip ts ok).1 =
      match req with
      | none => ⟨"error", "No valid message provided", 400⟩
      | some m =>
        if pyStrip m = "" then ⟨"error", "No valid message provided", 400⟩
        else ⟨"message", "Message updated", 200⟩ := by
  match req with
  | none => rfl
  | some m =>
    by_cases hs : pyStrip m = ""
    · simp [update_message, hs, errorResponse]
    · have hm : m ≠ "" := by
        rintro rfl
        exact hs rfl
      simp [update_message, hm, hs, successResponse]

/-- Claim C3: exactly one log line is appended for every accepted update
(under a succeeding log write) and none for a rejected one; the line has
the form "timestamp - ip - text newline" where the text field is the
whitespace-trimmed original input, not the separator-padded stored value. -/
theorem C3_log_lines (st : ServerState) (req : Option String)
    (ip ts : String) :
    (handleUpdate st req ip ts true).1.log.map logLine =
      st.log.map logLine ++
        match req with
        | none => []
        | some m =>
          if m = "" ∨ pyStrip m = "" then []
          else [ts ++ " - " ++ ip ++ " - " ++ pyStrip m ++ "\n"] := by
  match req with
  | none => simp [handleUpdate_none]
  | some m =>
    by_cases h : m = "" ∨ pyStrip m = ""
    · simp [handleUpdate_invalid st m ip ts true h, h]
    · simp [handleUpdate_accepted st m ip ts true h, h, logLine]

/-- Claim C4: in a render-loop iteration where the display driver raises,
the loop reports the failure reason, overwrites the store with the fixed
sentinel, and continues with further iterations from that store value; in
an iteration where the driver returns normally the loop does not mutate
the store. -/
theorem C4_render_failure_recovery (store e : String)
    (rest : List (Option String)) :
    (display_iteration store none (some e)).storeAfter = ERROR_SENTINEL ∧
    (display_iteration store none (some e)).consoleError =
      some ("Error displaying message: " ++ e) ∧
    display_loop_run store (some e :: rest) =
      display_loop_run ERROR_SENTINEL rest ∧
    (display_iteration store none none).storeAfter = store ∧
    (display_iteration store none none).consoleError = none :=
  ⟨rfl, rfl, rfl, rfl, rfl⟩

/-- Claim C5: every request whose message parameter is absent, empty or
whitespace-only leaves the server state entirely unchanged (store, log and
beep count), and this holds for any number of consecutive rejected
requests: no side effects accumulate. -/
theorem C5_rejected_requests_no_side_effects (st : ServerState)
    (reqs : List (Option String × String × String × Bool))
    (h : reqs.all blankRequest = true) :
    runRequests st reqs = st := by
  induction reqs generalizing st with
  | nil => rfl
  | cons r rest ih =>
    obtain ⟨q, ip, ts, ok⟩ := r
    rw [List.all_cons, Bool.and_eq_true] at h
    have hstep : (handleUpdate st q ip ts ok).1 = st := by
      cases q with
      | none => rw [handleUpdate_none]
      | some m =>
        have hm : pyStrip m = "" := by
          have h1 := h.1
          simpa [blankRequest] using h1
        rw [handleUpdate_invalid st m ip ts ok (Or.inr hm)]
    show runRequests (handleUpdate st q ip ts ok).1 rest = st
    rw [hstep]
    exact ih st h.2

/-- Witness for C5 on three consecutive rejected requests: parameter
absent, empty, and whitespace-only. -/
theorem C5_witness :
    runRequests initialState
      [(none, "10.0.0.1", "t1", true), (some "", "10.0.0.2", "t2", true),
        (some "   ", "10.0.0.3", "t3", true)] = initialState :=
  C5_rejected_requests_no_side_effects initialState
    [(none, "10.0.0.1", "t1", true), (some "", "10.0.0.2", "t2", true),
      (some "   ", "10.0.0.3", "t3", true)] (by decide)

/-- Claim C6: for every accepted update request (with a succeeding log
write) the handler's side effects happen in this order: first the store is
overwritten with the normalized message, then the log record is appended,
then the beep is triggered. -/
theorem C6_effect_order (m ip ts : String)
    (h : ¬(m = "" ∨ pyStrip m = "")) :
    (update_message (some m) ip ts true).2 =
      [Effect.setStore (m ++ MESSAGE_SPACING),
        Effect.logAppend ⟨ts, ip, pyStrip m⟩,
        Effect.startBeep] := by
  have hm : m ≠ "" := fun e => h (Or.inl e)
  have hs : pyStrip m ≠ "" := fun e => h (Or.inr e)
  simp [update_message, hm, hs, log_message, LOG_ENABLED, BUZZER_ENABLED,
    pyStrip_append_spacing]

/-- Witness for C6 at the concrete input "Hi". -/
theorem C6_witness :
    (update_message (some "Hi") "10.0.0.9" "2026-10-12 13:00:00" true).2 =
      [Effect.setStore ("Hi" ++ MESSAGE_SPACING),
        Effect.logAppend ⟨"2026-10-12 13:00:00", "10.0.0.9", pyStrip "Hi"⟩,
        Effect.startBeep] :=
  C6_effect_order "Hi" "10.0.0.9" "2026-10-12 13:00:00" (by decide)

/-- Claim C7: when the log-file append fails on an accepted update, the
failure is contained: the request still returns the success response, the
store holds the new padded value, no log record is appended, and the beep
is still triggered. -/
theorem C7_log_failure_isolated (st : ServerState) (m ip ts : String)
    (h : ¬(m = "" ∨ pyStrip m = "")) :
    (handleUpdate st (some m) ip ts false).2 = successResponse ∧
    (handleUpdate st (some m) ip ts false).1.current_message =
      m ++ MESSAGE_SPACING ∧
    (handleUpdate st (some m) ip ts false).1.log = st.log ∧
    (handleUpdate st (some m) ip ts false).1.beeps = st.beeps + 1 := by
  rw [handleUpdate_accepted st m ip ts false h]
  exact ⟨rfl, rfl, by simp, rfl⟩

/-- Witness for C7 at the concrete input "Hello" with a failing log
write. -/
theorem C7_witness :
    (handleUpdate initialState (some "Hello") "10.0.0.5" "t5" false).2 =
      successResponse ∧
    (handleUpdate initialState (some "Hello") "10.0.0.5" "t5"
        false).1.current_message = "Hello" ++ MESSAGE_SPACING ∧
    (handleUpdate initialState (some "Hello") "10.0.0.5" "t5" false).1.log =
      initialState.log ∧
    (handleUpdate initialState (some "Hello") "10.0.0.5" "t5" false).1.beeps =
      initialState.beeps + 1 :=
  C7_log_failure_isolated initialState "Hello" "10.0.0.5" "t5" (by decide)

/-- Claim C8: the display driver is invoked with the snapshot of the store
taken at the start of the iteration, unaffected by any concurrent store
mutation during the render call; a value written mid-render is rendered
only by the next iteration. -/
theorem C8_snapshot_semantics (store u : String)
    (mid mid2 fail fail2 : Option String) :
    (display_iteration store mid fail).rendered = store ∧
    (display_iteration
        ((display_iteration store (some u) none).storeAfter)
        mid2 fail2).rendered = u := by
  constructor
  · cases fail <;> rfl
  · cases fail2 <;> rfl

lemma sysStep_request (s : String) (req : Option String) (ip ts : String)
    (ok : Bool) :
    sysStep s (.request req ip ts ok) =
      (handleUpdate ⟨s, [], 0⟩ req ip ts ok).1.current_message := rfl

lemma spacing_suffix_append (m : String) :
    MESSAGE_SPACING.data <:+ (m ++ MESSAGE_SPACING).data := by
  rw [String.data_append]
  exact List.suffix_append _ _

lemma spacing_suffix_default : MESSAGE_SPACING.data <:+ DEFAULT_MESSAGE.data := by
  decide

lemma spacing_suffix_sentinel : MESSAGE_SPACING.data <:+ ERROR_SENTINEL.data := by
  decide

/-- Claim C9: in every reachable state the message store ends with the
three-space spacing suffix: the startup default, the render-failure
sentinel, and every value stored by an accepted update all carry it, and
rejected updates and successful renders do not disturb it. -/
theorem C9_spacing_suffix_invariant (events : List SysEvent) :
    MESSAGE_SPACING.data <:+ (reachableMessage events).data := by
  have key : ∀ (evs : List SysEvent) (s : String),
      MESSAGE_SPACING.data <:+ s.data →
      MESSAGE_SPACING.data <:+ (evs.foldl sysStep s).data := by
    intro evs
    induction evs with
    | nil => intro s hs; exact hs
    | cons ev rest ih =>
      intro s hs
      rw [List.foldl_cons]
      apply ih
      cases ev with
      | request req ip ts ok =>
        cases req with
        | none =>
          rw [sysStep_request, handleUpdate_none]
          exact hs
        | some m =>
          by_cases h : m = "" ∨ pyStrip m = ""
          · rw [sysStep_request, handleUpdate_invalid ⟨s, [], 0⟩ m ip ts ok h]
            exact hs
          · rw [sysStep_request, handleUpdate_accepted ⟨s, [], 0⟩ m ip ts ok h]
            exact spacing_suffix_append m
      | render failure =>
        cases failure with
        | none => exact hs
        | some e => exact spacing_suffix_sentinel
  exact key events DEFAULT_MESSAGE spacing_suffix_default

/-- Claim C10: an accepted input that still contains leading or trailing
whitespace is stored raw: the store receives the untrimmed input with the
separator appended (in particular not the trimmed-then-padded value), and
only the log record's message field is trimmed. -/
theorem C10_raw_stored_trimmed_logged (st : ServerState) (m ip ts : String)
    (hval : pyStrip m ≠ "") (hws : m ≠ pyStrip m) :
    (handleUpdate st (some m) ip ts true).1.current_message =
      m ++ MESSAGE_SPACING ∧
    (handleUpdate st (some m) ip ts true).1.current_message ≠
      pyStrip m ++ MESSAGE_SPACING ∧
    (handleUpdate st (some m) ip ts true).1.log =
      st.log ++ [⟨ts, ip, pyStrip m⟩] := by
  have h : ¬(m = "" ∨ pyStrip m = "") := by
    rintro (rfl | h)
    · exact hval rfl
    · exact hval h
  rw [handleUpdate_accepted st m ip ts true h]
  refine ⟨rfl, ?_, rfl⟩
  intro hEq
  apply hws
  have hd : m.data ++ MESSAGE_SPACING.data =
      (pyStrip m).data ++ MESSAGE_SPACING.data := by
    rw [← String.data_append, ← String.data_append]
    exact congrArg String.data hEq
  have : m.data = (pyStrip m).data := by
    exact List.append_cancel_right hd
  exact congrArg String.mk this

/-- Witness for C10 at the concrete input " Hi " (leading and trailing
whitespace). -/
theorem C10_witness :
    (handleUpdate initialState (some " Hi ") "10.0.0.3" "t3"
        true).1.current_message = " Hi " ++ MESSAGE_SPACING ∧
    (handleUpdate initialState (some " Hi ") "10.0.0.3" "t3"
        true).1.current_message ≠ pyStrip " Hi " ++ MESSAGE_SPACING ∧
    (handleUpdate initialState (some " Hi ") "10.0.0.3" "t3" true).1.log =
      initialState.log ++ [⟨"t3", "10.0.0.3", pyStrip " Hi "⟩] :=
  C10_raw_stored_trimmed_logged initialState " Hi " "10.0.0.3" "t3"
    (by decide) (by decide)
